import Mathlib

/-!
Verification of the wacli event pipeline: a shallow embedding of the
classifier, bounded store, broadcast and command-channel code from
src/cli/main.go and src/cli/calls.go, followed by theorems about it.

Machine integers of the source (Go int64 timestamps, sqlite row ids) are
modelled as Int and Nat; the sqlite engine is modelled as an in-memory
table of records plus an explicit success flag for each statement batch
(an Exec that fails leaves the table unchanged and surfaces an error,
exactly as the Go code's early returns do).  The reflection-driven
column mapping of buildInsertParams and the CREATE TABLE schemas are
embedded separately at the column-name level.
-/

namespace Wacli

/-- Constants from src/cli/main.go. -/
def maxMessages : Nat := 200

/-- Trim target from src/cli/main.go. -/
def trimToCount : Nat := 150

/-- Configuration loaded from the environment (loadConfig). -/
structure Config where
  IncludeStatusMessages : Bool
  IncludeMutedMessages : Bool
deriving DecidableEq

/-! ## JIDs (model of the whatsmeow types.JID collaborator) -/

/-- A protocol identity: user part, device number and server, modelling
whatsmeow's types.JID as used by this program. -/
structure JID where
  user : String
  device : Nat
  server : String
deriving DecidableEq

/-- ToNonAD drops the device-specific part of a JID. -/
def JID.toNonAD (j : JID) : JID := { j with device := 0 }

/-- String rendering of a JID (whatsmeow JID.String for a nonempty user):
user at server, with the device number inserted when present. -/
def JID.render (j : JID) : String :=
  if j.device = 0 then j.user ++ "@" ++ j.server
  else j.user ++ ":" ++ Nat.repr j.device ++ "@" ++ j.server

/-- IsEmpty: the zero JID. -/
def JID.isEmpty (j : JID) : Bool :=
  j.user == "" && j.device == 0 && j.server == ""

/-! ## Protocol message content (model of waE2E.Message) -/

/-- Quoted-context metadata: mention list and reply participant
(waE2E.ContextInfo).  Absent proto fields read as zero values. -/
structure ContextInfo where
  mentionedJID : List String
  participant : String
deriving DecidableEq

/-- An extended text sub-message. -/
structure ExtendedTextMessage where
  text : String
  contextInfo : Option ContextInfo
deriving DecidableEq

/-- An image sub-message. -/
structure ImageMessage where
  caption : String
  contextInfo : Option ContextInfo
deriving DecidableEq

/-- A video sub-message. -/
structure VideoMessage where
  caption : String
  contextInfo : Option ContextInfo
deriving DecidableEq

/-- A document sub-message. -/
structure DocumentMessage where
  fileName : String
  contextInfo : Option ContextInfo
deriving DecidableEq

/-- An audio sub-message; ptt distinguishes voice notes. -/
structure AudioMessage where
  ptt : Bool
  contextInfo : Option ContextInfo
deriving DecidableEq

/-- A sticker sub-message. -/
structure StickerMessage where
  contextInfo : Option ContextInfo
deriving DecidableEq

/-- A contact-card sub-message. -/
structure ContactMessage where
  displayName : String
deriving DecidableEq

/-- The waE2E.Message union as read through the Go getters: the plain
conversation text ("" when absent) and the optional sub-messages. -/
structure WaMessage where
  conversation : String
  extendedText : Option ExtendedTextMessage
  image : Option ImageMessage
  video : Option VideoMessage
  document : Option DocumentMessage
  audio : Option AudioMessage
  sticker : Option StickerMessage
  contact : Option ContactMessage
  location : Option Unit
deriving DecidableEq

/-- A waE2E.Message with every field absent. -/
def WaMessage.empty : WaMessage :=
  { conversation := "", extendedText := none, image := none, video := none,
    document := none, audio := none, sticker := none, contact := none,
    location := none }

/-- getContextInfo from src/cli/main.go: the first present sub-message
(extended text, image, video, document, audio, sticker, in that order)
supplies the context info; its own absent context is returned as none
without falling through. -/
def getContextInfo (msg : WaMessage) : Option ContextInfo :=
  match msg.extendedText with
  | some ext => ext.contextInfo
  | none =>
  match msg.image with
  | some img => img.contextInfo
  | none =>
  match msg.video with
  | some vid => vid.contextInfo
  | none =>
  match msg.document with
  | some doc => doc.contextInfo
  | none =>
  match msg.audio with
  | some audio => audio.contextInfo
  | none =>
  match msg.sticker with
  | some sticker => sticker.contextInfo
  | none => none

/-- extractText from src/cli/main.go: verbatim text, else captions with
type tags, else fixed placeholder labels, else the empty string. -/
def extractText (msg : WaMessage) : String :=
  if msg.conversation ≠ "" then msg.conversation
  else
  match msg.extendedText with
  | some ext => ext.text
  | none =>
  match msg.image with
  | some img => if img.caption ≠ "" then "[Image] " ++ img.caption else "[Image]"
  | none =>
  match msg.video with
  | some vid => if vid.caption ≠ "" then "[Video] " ++ vid.caption else "[Video]"
  | none =>
  match msg.document with
  | some doc => "[Document] " ++ doc.fileName
  | none =>
  match msg.audio with
  | some audio => if audio.ptt then "[Voice Message]" else "[Audio]"
  | none =>
  match msg.sticker with
  | some _ => "[Sticker]"
  | none =>
  match msg.contact with
  | some contact => "[Contact] " ++ contact.displayName
  | none =>
  match msg.location with
  | some _ => "[Location]"
  | none => ""

/-- The fallback applied in handleMessage right after extractText: a
media-only event whose extraction is empty resolves to a placeholder. -/
def resolveDisplayText (msg : WaMessage) : String :=
  let text := extractText msg
  if text == "" then "[Media/Other]" else text

/-! ## Account-relative context (the messaging-client collaborator) -/

/-- A contact record as returned by the contact store (GetContact with
Found = true). -/
structure Contact where
  pushName : String
  fullName : String
deriving DecidableEq

/-- store.MutedForever sentinel (time.Unix(-1, 0)). -/
def mutedForever : Int := -1

/-- The queryable state of the messaging client and its stores: own
identities, chat settings (none models both a lookup error and
Found = false), contacts and group metadata, and the current clock. -/
structure Env where
  myJID : Option JID
  myLID : JID
  chatSettings : JID → Option Int
  contacts : JID → Option Contact
  groupInfo : JID → Option String
  now : Int

/-- isMuted from src/cli/main.go: muted forever, or muted until a
future instant. -/
def isMuted (env : Env) (chatJID : JID) : Bool :=
  match env.chatSettings chatJID with
  | none => false
  | some mutedUntil =>
    if mutedUntil = mutedForever then true
    else if env.now < mutedUntil then true
    else false

/-- isMentioned from src/cli/main.go: some mentioned JID equals the own
identity (full or non-AD form) or, when the LID is set, its non-AD form. -/
def isMentioned (env : Env) (msg : WaMessage) : Bool :=
  match env.myJID with
  | none => false
  | some myJID =>
    match getContextInfo msg with
    | none => false
    | some ctx =>
      ctx.mentionedJID.any fun jid =>
        jid == myJID.toNonAD.render || jid == myJID.render ||
        (!env.myLID.isEmpty && jid == env.myLID.toNonAD.render)

/-- isReplyToMe from src/cli/main.go: the reply participant is nonempty
and equals the own identity (full or non-AD form) or, when the LID is
set, its non-AD form. -/
def isReplyToMe (env : Env) (msg : WaMessage) : Bool :=
  match env.myJID with
  | none => false
  | some myJID =>
    match getContextInfo msg with
    | none => false
    | some ctx =>
      if ctx.participant == "" then false
      else
        ctx.participant == myJID.toNonAD.render ||
        ctx.participant == myJID.render ||
        (!env.myLID.isEmpty && ctx.participant == env.myLID.toNonAD.render)

/-! ## Persisted records -/

/-- The Message record persisted and broadcast by the program
(src/cli/main.go).  The Go struct's Type field is TypeTag here (Type is
a Lean keyword); ID is assigned by the store. -/
structure Message where
  TypeTag : String
  ID : Nat
  Timestamp : Int
  ChatJID : String
  ChatName : String
  SenderJID : String
  SenderName : String
  IsGroup : Bool
  IsMuted : Bool
  IsReplyToMe : Bool
  Text : String
deriving DecidableEq

/-- The Call record persisted by the program (src/cli/calls.go). -/
structure Call where
  ID : Nat
  Timestamp : Int
  CallID : String
  CallerJID : String
  CallerName : String
  IsGroup : Bool
  GroupJID : String
  GroupName : String
deriving DecidableEq

/-! ## Bounded store (saveMessage / saveCall) -/

/-- The record accessors the two save functions use: the timestamp
column, and reading/assigning the autoincrement id. -/
structure TableOps (α : Type) where
  ts : α → Int
  getId : α → Nat
  setId : α → Nat → α

/-- One sqlite table: its rows in insertion order plus the next
autoincrement id. -/
structure StoreTable (α : Type) where
  rows : List α
  nextId : Nat
deriving DecidableEq

/-- A freshly created table (sqlite autoincrement starts at 1). -/
def StoreTable.empty {α : Type} : StoreTable α := ⟨[], 1⟩

/-- Ordering used by the trim query: newest first by timestamp. -/
def tsDesc {α : Type} (ops : TableOps α) (a b : α) : Prop :=
  ops.ts b ≤ ops.ts a

instance {α : Type} (ops : TableOps α) : DecidableRel (tsDesc ops) :=
  fun a b => inferInstanceAs (Decidable (ops.ts b ≤ ops.ts a))

/-- The id set of SELECT id FROM t ORDER BY timestamp DESC LIMIT 150. -/
def keepIds {α : Type} (ops : TableOps α) (rows : List α) : List Nat :=
  ((List.insertionSort (tsDesc ops) rows).take trimToCount).map ops.getId

/-- DELETE FROM t WHERE id NOT IN (SELECT id FROM t ORDER BY timestamp
DESC LIMIT 150): the rows whose id is among the newest ids survive. -/
def trimRows {α : Type} (ops : TableOps α) (rows : List α) : List α :=
  rows.filter fun r => (keepIds ops rows).contains (ops.getId r)

/-- The shared body of saveMessage and saveCall: insert the record
(assigning the next id), then count, then trim when the count exceeds
maxMessages.  Returns the new table, the record with its assigned id,
and whether the trim ran. -/
def saveRow {α : Type} (ops : TableOps α) (t : StoreTable α) (x : α) :
    StoreTable α × α × Bool :=
  let x' := ops.setId x t.nextId
  let inserted := t.rows ++ [x']
  if inserted.length > maxMessages then
    (⟨trimRows ops inserted, t.nextId + 1⟩, x', true)
  else
    (⟨inserted, t.nextId + 1⟩, x', false)

/-- A sequence of save attempts; a false flag models a failed Exec,
which leaves the table unchanged (the Go functions return the error
before touching anything else). -/
def runTable {α : Type} (ops : TableOps α) :
    StoreTable α → List (α × Bool) → StoreTable α
  | t, [] => t
  | t, (x, ok) :: rest =>
      runTable ops (if ok then (saveRow ops t x).1 else t) rest

/-- Field access for the messages table. -/
def msgOps : TableOps Message :=
  { ts := Message.Timestamp, getId := Message.ID,
    setId := fun m i => { m with ID := i } }

/-- Field access for the calls table. -/
def callOps : TableOps Call :=
  { ts := Call.Timestamp, getId := Call.ID,
    setId := fun c i => { c with ID := i } }

/-- saveMessage from src/cli/main.go at the table level. -/
def saveMessage (t : StoreTable Message) (m : Message) :
    StoreTable Message × Message × Bool :=
  saveRow msgOps t m

/-- saveCall from src/cli/calls.go at the table level. -/
def saveCall (t : StoreTable Call) (c : Call) :
    StoreTable Call × Call × Bool :=
  saveRow callOps t c

/-- The messages table after a sequence of save attempts. -/
def runMessages (input : List (Message × Bool)) : StoreTable Message :=
  runTable msgOps StoreTable.empty input

/-- The calls table after a sequence of save attempts. -/
def runCalls (input : List (Call × Bool)) : StoreTable Call :=
  runTable callOps StoreTable.empty input

/-! ## Inbound events -/

/-- An inbound chat message event (events.Message as this program reads
it: the Info flags and the payload). -/
structure MessageEvent where
  isFromMe : Bool
  chat : JID
  sender : JID
  timestamp : Int
  isGroup : Bool
  pushName : String
  message : WaMessage

/-- An inbound call offer (events.CallOffer / BasicCallMeta). -/
structure CallOfferEvent where
  timestamp : Int
  callID : String
  caller : JID
  groupJID : JID

/-! ## Observable actions of the pipeline -/

/-- The payload written to a peer socket: a tagged message or call. -/
inductive SocketEventData where
  | msg (m : Message)
  | call (c : Call)
deriving DecidableEq

/-- The externally visible actions the handlers perform, in order. -/
inductive Effect where
  | persistMessage (m : Message)
  | persistCall (c : Call)
  | logError (s : String)
  | peerWrite (peer : Nat) (d : SocketEventData)
  | dispatchSend (chatJID text : String)
  | dispatchReply (chatJID messageID senderJID text : String)
  | closeConn (peer : Nat)
  | exitProcess (code : Nat)
deriving DecidableEq

/-- Whether an effect is a write of event data to a peer socket. -/
def Effect.isPeerWrite : Effect → Bool
  | .peerWrite _ _ => true
  | _ => false

/-- Whether an effect persists a record to a table. -/
def Effect.isPersist : Effect → Bool
  | .persistMessage _ => true
  | .persistCall _ => true
  | _ => false

/-- Whether an effect is an error log line. -/
def Effect.isLogError : Effect → Bool
  | .logError _ => true
  | _ => false

/-- Whether an effect terminates the process. -/
def Effect.isExit : Effect → Bool
  | .exitProcess _ => true
  | _ => false

/-- Whether an effect closes a peer connection. -/
def Effect.isCloseConn : Effect → Bool
  | .closeConn _ => true
  | _ => false

/-! ## Broadcast (broadcastMessage / broadcastCall / sendAttentionWindow) -/

/-- sendAttentionWindow from src/cli/main.go: dial the rworkspaces
socket and write the attention command; either step may fail. -/
def sendAttentionWindow (dialOk writeOk : Bool) : Bool :=
  dialOk && writeOk

/-- broadcastMessage from src/cli/main.go: serialize the tagged event
once, write it to every registered peer, then notify the attention
socket; a dial or write failure there is logged and exits the process
with status 1. -/
def broadcastMessage (conns : List Nat) (dialOk writeOk : Bool)
    (m : Message) : List Effect :=
  (conns.map fun p => Effect.peerWrite p (SocketEventData.msg m)) ++
    (if sendAttentionWindow dialOk writeOk then []
     else [Effect.logError "Failed to send attention", Effect.exitProcess 1])

/-- broadcastCall from src/cli/main.go: serialize the tagged call event
once and write it to every registered peer.  No other function of the
program ever calls it. -/
def broadcastCall (conns : List Nat) (c : Call) : List Effect :=
  conns.map fun p => Effect.peerWrite p (SocketEventData.call c)

/-! ## Name resolution -/

/-- getSenderName from src/cli/main.go: in a group, prefer the contact
store's push name then full name; otherwise the event's push name, then
the bare user part of the sender JID. -/
def getSenderName (env : Env) (ev : MessageEvent) : String :=
  let base := if ev.pushName ≠ "" then ev.pushName else ev.sender.user
  if ev.isGroup then
    match env.contacts ev.sender with
    | some contact =>
      if contact.pushName ≠ "" then contact.pushName
      else if contact.fullName ≠ "" then contact.fullName
      else base
    | none => base
  else base

/-- getChatName from src/cli/main.go: for a group, the group name when
the metadata query succeeds; otherwise the chat contact's push or full
name, then the bare user part of the chat JID. -/
def getChatName (env : Env) (ev : MessageEvent) : String :=
  match (if ev.isGroup then env.groupInfo ev.chat else none) with
  | some name => name
  | none =>
    match env.contacts ev.chat with
    | some contact =>
      if contact.pushName ≠ "" then contact.pushName
      else if contact.fullName ≠ "" then contact.fullName
      else ev.chat.user
    | none => ev.chat.user

/-- getCallerName from src/cli/calls.go. -/
def getCallerName (env : Env) (callerJID : JID) : String :=
  match env.contacts callerJID with
  | some contact =>
    if contact.pushName ≠ "" then contact.pushName
    else if contact.fullName ≠ "" then contact.fullName
    else callerJID.user
  | none => callerJID.user

/-! ## Event handlers -/

/-- handleMessage from src/cli/main.go: drop self-originated events,
drop status-channel events unless configured in, drop muted chats'
messages without a mention or an own-reply unless configured in; then
build the Message record, save it (a failure is logged) and broadcast
it.  saveOk models the fate of the database statements, dialOk and
writeOk the fate of the attention notification. -/
def handleMessage (env : Env) (cfg : Config) (conns : List Nat)
    (db : StoreTable Message) (saveOk dialOk writeOk : Bool)
    (ev : MessageEvent) : StoreTable Message × List Effect :=
  if ev.isFromMe then (db, [])
  else if ev.chat.server == "broadcast" && !cfg.IncludeStatusMessages then
    (db, [])
  else
    let muted := isMuted env ev.chat
    let mentioned := isMentioned env ev.message
    let replyToMe := isReplyToMe env ev.message
    if muted && !mentioned && !replyToMe && !cfg.IncludeMutedMessages then
      (db, [])
    else
      let text := resolveDisplayText ev.message
      let message : Message :=
        { TypeTag := "message", ID := 0, Timestamp := ev.timestamp,
          ChatJID := ev.chat.render, ChatName := getChatName env ev,
          SenderJID := ev.sender.render, SenderName := getSenderName env ev,
          IsGroup := ev.isGroup, IsMuted := muted, IsReplyToMe := replyToMe,
          Text := text }
      let saved :=
        if saveOk then
          let r := saveMessage db message
          (r.1, r.2.1, [Effect.persistMessage r.2.1])
        else
          (db, message, [Effect.logError "Failed to save message"])
      (saved.1, saved.2.2 ++ broadcastMessage conns dialOk writeOk saved.2.1)

/-- handleCallOffer from src/cli/calls.go: resolve the group name when
the call is a group call, build the Call record and save it (a failure
is logged).  The function never touches the peer registry. -/
def handleCallOffer (env : Env) (db : StoreTable Call) (saveOk : Bool)
    (ev : CallOfferEvent) : StoreTable Call × List Effect :=
  let isGroup := !ev.groupJID.isEmpty
  let groupName :=
    if isGroup then
      match env.groupInfo ev.groupJID with
      | some name => name
      | none => ""
    else ""
  let call : Call :=
    { ID := 0, Timestamp := ev.timestamp, CallID := ev.callID,
      CallerJID := ev.caller.render,
      CallerName := getCallerName env ev.caller,
      IsGroup := isGroup, GroupJID := ev.groupJID.render,
      GroupName := groupName }
  if saveOk then
    let r := saveCall db call
    (r.1, [Effect.persistCall r.2.1])
  else
    (db, [Effect.logError "Failed to save call"])

/-! ## Command channel (handleSocketConn) -/

/-- A decoded client command record. -/
structure SocketCommand where
  action : String
  chatJID : String
  messageID : String
  senderJID : String
  text : String
deriving DecidableEq

/-- One line read from a peer: either a record that failed to decode,
or a decoded command together with the outcome of its dispatch to the
messaging client. -/
inductive ConnLine where
  | malformed
  | cmd (c : SocketCommand) (sendOk : Bool)
deriving DecidableEq

/-- The actions one command record provokes: parse failures and unknown
actions are logged; send and reply are dispatched to the messaging
client, a failure being logged. -/
def connLineEffects : ConnLine → List Effect
  | .malformed => [Effect.logError "Failed to parse socket command"]
  | .cmd c sendOk =>
    if c.action == "send" then
      Effect.dispatchSend c.chatJID c.text ::
        (if sendOk then [] else [Effect.logError "Failed to send message"])
    else if c.action == "reply" then
      Effect.dispatchReply c.chatJID c.messageID c.senderJID c.text ::
        (if sendOk then [] else [Effect.logError "Failed to reply to message"])
    else
      [Effect.logError ("Unknown socket command: " ++ c.action)]

/-- The scanner loop of handleSocketConn: every available line is
handled in turn, with the per-line match inline as in the source; no
branch leaves the loop, which ends only when the peer's stream does. -/
def connLoop : List ConnLine → List Effect
  | [] => []
  | .malformed :: rest =>
      Effect.logError "Failed to parse socket command" :: connLoop rest
  | .cmd c sendOk :: rest =>
      (if c.action == "send" then
        Effect.dispatchSend c.chatJID c.text ::
          (if sendOk then [] else [Effect.logError "Failed to send message"])
      else if c.action == "reply" then
        Effect.dispatchReply c.chatJID c.messageID c.senderJID c.text ::
          (if sendOk then [] else [Effect.logError "Failed to reply to message"])
      else
        [Effect.logError ("Unknown socket command: " ++ c.action)]) ++
      connLoop rest

/-- Go map insertion of the peer handle (idempotent). -/
def addPeer (conn : Nat) (conns : List Nat) : List Nat :=
  if conn ∈ conns then conns else conn :: conns

/-- Go map deletion of the peer handle. -/
def removePeer (conn : Nat) (conns : List Nat) : List Nat :=
  conns.filter fun p => p ≠ conn

/-- handleSocketConn from src/cli/main.go: register the peer, run the
scanner loop over the lines the peer sends until its stream ends, then
unregister the peer and close the connection. -/
def handleSocketConn (conn : Nat) (conns : List Nat)
    (lines : List ConnLine) : List Nat × List Effect :=
  let registered := addPeer conn conns
  (removePeer conn registered, connLoop lines ++ [Effect.closeConn conn])

/-! ## Column mapping (buildInsertParams and the sqlite schemas) -/

/-- The json tags of the Message struct fields, in declaration order. -/
def messageJsonTags : List String :=
  ["type", "id", "timestamp", "chat_jid", "chat_name", "sender_jid",
   "sender_name", "is_group", "is_muted", "is_reply_to_me", "text"]

/-- The json tags of the Call struct fields, in declaration order. -/
def callJsonTags : List String :=
  ["id", "timestamp", "call_id", "caller_jid", "caller_name", "is_group",
   "group_jid", "group_name"]

/-- buildInsertParams from src/cli/main.go at the column level: every
tagged field except the id becomes an INSERT column. -/
def buildInsertColumns (tags : List String) : List String :=
  tags.filter fun tag => !(tag == "" || tag == "id")

/-- The columns of the messages table (initMessageDB's CREATE TABLE). -/
def messagesTableColumns : List String :=
  ["id", "message_id", "timestamp", "chat_jid", "chat_name", "sender_jid",
   "sender_name", "is_group", "is_muted", "is_reply_to_me", "text"]

/-- The columns of the calls table (initMessageDB's CREATE TABLE). -/
def callsTableColumns : List String :=
  ["id", "timestamp", "call_id", "caller_jid", "caller_name", "is_group",
   "group_jid", "group_name"]

/-- Whether sqlite accepts the INSERT: every named column must exist in
the table. -/
def insertColumnsValid (cols tableCols : List String) : Bool :=
  cols.all fun c => tableCols.contains c

/-! ## Store lemmas -/

instance {α : Type} (ops : TableOps α) : IsTotal α (tsDesc ops) :=
  ⟨fun a b => le_total (ops.ts b) (ops.ts a)⟩

instance {α : Type} (ops : TableOps α) : IsTrans α (tsDesc ops) :=
  ⟨fun _ _ _ hab hbc => le_trans hbc hab⟩

/-- Membership form of List.contains on ids. -/
theorem contains_iff_mem (l : List Nat) (a : Nat) :
    l.contains a = true ↔ a ∈ l := by
  simp

/-- The table invariant maintained by the save functions: the row count
is within the cap, ids are pairwise distinct, and every id is below the
next autoincrement value. -/
def TableInv {α : Type} (ops : TableOps α) (t : StoreTable α) : Prop :=
  t.rows.length ≤ maxMessages ∧ (t.rows.map ops.getId).Nodup ∧
    ∀ r ∈ t.rows, ops.getId r < t.nextId

/-- The trim result is, up to order, the newest trimToCount rows of the
timestamp-descending ordering of the table. -/
theorem trimRows_perm_take {α : Type} (ops : TableOps α) (rows : List α)
    (hnd : (rows.map ops.getId).Nodup) :
    (trimRows ops rows).Perm
      ((List.insertionSort (tsDesc ops) rows).take trimToCount) := by
  classical
  set L := List.insertionSort (tsDesc ops) rows with hLdef
  have hperm : L.Perm rows := List.perm_insertionSort _ rows
  have hndL : (L.map ops.getId).Nodup :=
    ((hperm.map ops.getId).symm).nodup hnd
  set p : α → Bool := fun r => (keepIds ops rows).contains (ops.getId r)
    with hpdef
  have hsplit : L.take trimToCount ++ L.drop trimToCount = L :=
    List.take_append_drop _ _
  have hkeep : keepIds ops rows = (L.take trimToCount).map ops.getId := rfl
  have hndsplit :
      ((L.take trimToCount).map ops.getId ++
        (L.drop trimToCount).map ops.getId).Nodup := by
    rw [← List.map_append, hsplit]; exact hndL
  have hdisj := (List.nodup_append.mp hndsplit).2.2
  have htake : (L.take trimToCount).filter p = L.take trimToCount := by
    rw [List.filter_eq_self]
    intro a ha
    rw [hpdef, hkeep, contains_iff_mem]
    exact List.mem_map_of_mem _ ha
  have hdrop : (L.drop trimToCount).filter p = [] := by
    rw [List.filter_eq_nil_iff]
    intro a ha hpa
    rw [hpdef, hkeep, contains_iff_mem] at hpa
    exact hdisj hpa (List.mem_map_of_mem _ ha)
  have h1 : (trimRows ops rows).Perm (L.filter p) := by
    exact (hperm.symm).filter p
  have h2 : L.filter p = L.take trimToCount := by
    conv_lhs => rw [← hsplit]
    rw [List.filter_append, htake, hdrop, List.append_nil]
  rw [h2] at h1
  exact h1

/-- Size of the trim result. -/
theorem trimRows_length {α : Type} (ops : TableOps α) (rows : List α)
    (hnd : (rows.map ops.getId).Nodup) :
    (trimRows ops rows).length = min trimToCount rows.length := by
  have h := (trimRows_perm_take ops rows hnd).length_eq
  rw [h, List.length_take,
    (List.perm_insertionSort (tsDesc ops) rows).length_eq]

/-- Every row the trim deletes is at least as old as every row it
keeps. -/
theorem trimRows_recency {α : Type} (ops : TableOps α) (rows : List α)
    (hnd : (rows.map ops.getId).Nodup) :
    ∀ d ∈ rows, d ∉ trimRows ops rows →
      ∀ k ∈ trimRows ops rows, ops.ts d ≤ ops.ts k := by
  classical
  intro d hd hdnot k hk
  set L := List.insertionSort (tsDesc ops) rows with hLdef
  have hperm : L.Perm rows := List.perm_insertionSort _ rows
  have hmem : ∀ a : α,
      a ∈ trimRows ops rows ↔
        a ∈ (List.insertionSort (tsDesc ops) rows).take trimToCount :=
    fun _ => (trimRows_perm_take ops rows hnd).mem_iff
  have hsorted : List.Sorted (tsDesc ops) L :=
    List.sorted_insertionSort _ rows
  have hsplit : L.take trimToCount ++ L.drop trimToCount = L :=
    List.take_append_drop _ _
  have hpair :
      ∀ a ∈ L.take trimToCount, ∀ b ∈ L.drop trimToCount, tsDesc ops a b := by
    have := hsorted
    rw [List.Sorted, ← hsplit, List.pairwise_append] at this
    exact this.2.2
  have hkK : k ∈ L.take trimToCount := (hmem k).mp hk
  have hdL : d ∈ L := hperm.mem_iff.mpr hd
  have hdD : d ∈ L.drop trimToCount := by
    rcases (List.mem_append.mp (by rw [hsplit]; exact hdL)) with h | h
    · exact absurd ((hmem d).mpr h) hdnot
    · exact h
  exact hpair k hkK d hdD

/-- One successful save preserves the table invariant and satisfies the
cap and trim contract. -/
theorem saveRow_step {α : Type} (ops : TableOps α)
    (law : ∀ x i, ops.getId (ops.setId x i) = i)
    (t : StoreTable α) (x : α) (hInv : TableInv ops t) :
    TableInv ops (saveRow ops t x).1 ∧
    (saveRow ops t x).1.rows.length ≤ maxMessages ∧
    ((saveRow ops t x).2.2 = true →
      (saveRow ops t x).1.rows.length = trimToCount ∧
      ∀ d ∈ t.rows ++ [ops.setId x t.nextId],
        d ∉ (saveRow ops t x).1.rows →
          ∀ k ∈ (saveRow ops t x).1.rows, ops.ts d ≤ ops.ts k) := by
  classical
  obtain ⟨hlen, hnd, hbound⟩ := hInv
  set x' := ops.setId x t.nextId with hx'
  set rows1 := t.rows ++ [x'] with hrows1
  have hnd1 : (rows1.map ops.getId).Nodup := by
    rw [hrows1, List.map_append]
    rw [List.nodup_append]
    refine ⟨hnd, List.nodup_singleton _, ?_⟩
    intro a ha hb
    rw [List.mem_map] at ha
    obtain ⟨r, hr, hra⟩ := ha
    simp only [List.map_cons, List.map_nil, List.mem_singleton] at hb
    rw [hx', law] at hb
    subst hb
    exact absurd (hra ▸ hbound r hr) (lt_irrefl _)
  have hlen1 : rows1.length = t.rows.length + 1 := by
    rw [hrows1, List.length_append, List.length_singleton]
  by_cases hgt : rows1.length > maxMessages
  · have hsave :
        saveRow ops t x = (⟨trimRows ops rows1, t.nextId + 1⟩, x', true) := by
      rw [saveRow]
      simp only [← hx', ← hrows1]
      rw [if_pos hgt]
    have htlen : (trimRows ops rows1).length = trimToCount := by
      rw [trimRows_length ops rows1 hnd1]
      have : trimToCount ≤ rows1.length := by
        have h1 : trimToCount ≤ maxMessages := by norm_num [trimToCount, maxMessages]
        exact le_trans h1 (le_of_lt hgt)
      exact min_eq_left this
    have hsub : (trimRows ops rows1).Sublist rows1 := List.filter_sublist _
    refine ⟨⟨?_, ?_, ?_⟩, ?_, ?_⟩
    · rw [hsave]
      simp only [htlen]
      norm_num [trimToCount, maxMessages]
    · rw [hsave]
      exact (hsub.map ops.getId).nodup hnd1
    · rw [hsave]
      intro r hr
      have hrmem : r ∈ rows1 := hsub.mem hr
      rcases List.mem_append.mp hrmem with h | h
      · exact lt_trans (hbound r h) (Nat.lt_succ_self _)
      · rw [List.mem_singleton] at h
        subst h
        rw [hx', law]
        exact Nat.lt_succ_self _
    · rw [hsave]
      simp only [htlen]
      norm_num [trimToCount, maxMessages]
    · intro _
      rw [hsave]
      refine ⟨htlen, ?_⟩
      intro d hd hdnot k hk
      exact trimRows_recency ops rows1 hnd1 d hd hdnot k hk
  · have hsave :
        saveRow ops t x = (⟨rows1, t.nextId + 1⟩, x', false) := by
      rw [saveRow]
      simp only [← hx', ← hrows1]
      rw [if_neg hgt]
    refine ⟨⟨?_, ?_, ?_⟩, ?_, ?_⟩
    · rw [hsave]
      exact le_of_not_lt hgt
    · rw [hsave]
      exact hnd1
    · rw [hsave]
      intro r hr
      rcases List.mem_append.mp hr with h | h
      · exact lt_trans (hbound r h) (Nat.lt_succ_self _)
      · rw [List.mem_singleton] at h
        subst h
        rw [hx', law]
        exact Nat.lt_succ_self _
    · rw [hsave]
      exact le_of_not_lt hgt
    · intro hflag
      rw [hsave] at hflag
      exact absurd hflag (by simp)

/-- The invariant holds for a fresh table. -/
theorem tableInv_empty {α : Type} (ops : TableOps α) :
    TableInv ops (StoreTable.empty (α := α)) := by
  refine ⟨?_, ?_, ?_⟩
  · simp [StoreTable.empty, maxMessages]
  · simp [StoreTable.empty]
  · intro r hr
    simp [StoreTable.empty] at hr

/-- The invariant holds after any sequence of save attempts. -/
theorem runTable_inv {α : Type} (ops : TableOps α)
    (law : ∀ x i, ops.getId (ops.setId x i) = i)
    (input : List (α × Bool)) (t : StoreTable α) (hInv : TableInv ops t) :
    TableInv ops (runTable ops t input) := by
  induction input generalizing t with
  | nil => exact hInv
  | cons head rest ih =>
    obtain ⟨x, ok⟩ := head
    rw [runTable]
    apply ih
    by_cases hok : ok = true
    · rw [hok, if_pos rfl]
      exact (saveRow_step ops law t x hInv).1
    · rw [eq_false_of_ne_true hok]
      simpa using hInv

/-- The save functions assign the id they insert. -/
theorem msgOps_law (m : Message) (i : Nat) :
    msgOps.getId (msgOps.setId m i) = i := rfl

/-- The save functions assign the id they insert (calls table). -/
theorem callOps_law (c : Call) (i : Nat) :
    callOps.getId (callOps.setId c i) = i := rfl

/-- The contract of one append: the cap holds afterwards and, when the
trim ran, exactly trimToCount rows remain and every deleted row is at
least as old as every retained row. -/
def boundedAppendSpec {α : Type} (ops : TableOps α) (t : StoreTable α)
    (x : α) : Prop :=
  (saveRow ops t x).1.rows.length ≤ maxMessages ∧
  ((saveRow ops t x).2.2 = true →
    (saveRow ops t x).1.rows.length = trimToCount ∧
    ∀ d ∈ t.rows ++ [ops.setId x t.nextId],
      d ∉ (saveRow ops t x).1.rows →
        ∀ k ∈ (saveRow ops t x).1.rows, ops.ts d ≤ ops.ts k)

/-- C1: for every sequence of appends into the messages or calls table,
after each append the row count is at most maxRows (200); whenever the
trim runs it leaves exactly trimToRows (150) rows, and they are the
most recent rows by timestamp (every deleted row is at least as old as
every retained one). -/
theorem c1_bounded_store (msgInput : List (Message × Bool))
    (callInput : List (Call × Bool)) (m : Message) (c : Call) :
    (runMessages msgInput).rows.length ≤ maxMessages ∧
    (runCalls callInput).rows.length ≤ maxMessages ∧
    boundedAppendSpec msgOps (runMessages msgInput) m ∧
    boundedAppendSpec callOps (runCalls callInput) c := by
  have hm : TableInv msgOps (runMessages msgInput) :=
    runTable_inv msgOps msgOps_law msgInput _ (tableInv_empty msgOps)
  have hc : TableInv callOps (runCalls callInput) :=
    runTable_inv callOps callOps_law callInput _ (tableInv_empty callOps)
  have hmstep := saveRow_step msgOps msgOps_law _ m hm
  have hcstep := saveRow_step callOps callOps_law _ c hc
  exact ⟨hm.1, hc.1, ⟨hmstep.2.1, hmstep.2.2⟩, ⟨hcstep.2.1, hcstep.2.2⟩⟩

/-- A minimal concrete message for closed checks. -/
def mWit : Message :=
  { TypeTag := "message", ID := 0, Timestamp := 0, ChatJID := "c",
    ChatName := "c", SenderJID := "s", SenderName := "s", IsGroup := false,
    IsMuted := false, IsReplyToMe := false, Text := "t" }

/-- A minimal concrete call for closed checks. -/
def cWit : Call :=
  { ID := 0, Timestamp := 0, CallID := "k", CallerJID := "s",
    CallerName := "s", IsGroup := false, GroupJID := "", GroupName := "" }

/-- maxRows successful message appends with increasing timestamps. -/
def c1Input : List (Message × Bool) :=
  (List.range maxMessages).map fun i => ({ mWit with Timestamp := (i : Int) }, true)

/-- The message appended on top of the full table. -/
def c1Extra : Message := { mWit with Timestamp := 500 }

set_option maxRecDepth 100000 in
/-- C1 witness: appending to a table holding maxRows rows makes the
trim run and leaves exactly trimToRows rows. -/
theorem c1_bounded_store_witness :
    (saveRow msgOps (runMessages c1Input) c1Extra).2.2 = true ∧
    (saveRow msgOps (runMessages c1Input) c1Extra).1.rows.length =
      trimToCount := by
  have h := c1_bounded_store c1Input [] c1Extra cWit
  have hflag : (saveRow msgOps (runMessages c1Input) c1Extra).2.2 = true := by
    decide
  exact ⟨hflag, (h.2.2.1.2 hflag).1⟩

/-! ## Classifier lemmas -/

/-- A kept message always produces effects: the save attempt (either
the persist or the logged failure) followed by the broadcast. -/
theorem handleMessage_keep_ne_nil (env : Env) (cfg : Config)
    (conns : List Nat) (db : StoreTable Message)
    (saveOk dialOk writeOk : Bool) (ev : MessageEvent)
    (h1 : ev.isFromMe = false)
    (h2 : (ev.chat.server == "broadcast" && !cfg.IncludeStatusMessages) = false)
    (h3 : (isMuted env ev.chat && !isMentioned env ev.message &&
      !isReplyToMe env ev.message && !cfg.IncludeMutedMessages) = false) :
    (handleMessage env cfg conns db saveOk dialOk writeOk ev).2 ≠ [] := by
  simp only [handleMessage, h1, h2, h3, Bool.false_eq_true, if_false]
  cases saveOk <;> simp

/-- A message in a muted chat with no mention, no own-reply and the
muted-messages option off is dropped without a trace. -/
theorem handleMessage_drop_muted (env : Env) (cfg : Config)
    (conns : List Nat) (db : StoreTable Message)
    (saveOk dialOk writeOk : Bool) (ev : MessageEvent)
    (h1 : ev.isFromMe = false)
    (h2 : (ev.chat.server == "broadcast" && !cfg.IncludeStatusMessages) = false)
    (h3 : (isMuted env ev.chat && !isMentioned env ev.message &&
      !isReplyToMe env ev.message && !cfg.IncludeMutedMessages) = true) :
    handleMessage env cfg conns db saveOk dialOk writeOk ev = (db, []) := by
  simp only [handleMessage, h1, h2, h3, Bool.false_eq_true, if_false, if_true]

/-- C2: for an inbound message (not self-originated, not on the status
channel) in a muted chat: with IncludeMutedMessages off the classifier
drops it exactly when it neither mentions the own identity nor replies
to it; with IncludeMutedMessages on it is always kept. -/
theorem c2_mute_bypass (env : Env) (cfg : Config) (conns : List Nat)
    (db : StoreTable Message) (saveOk dialOk writeOk : Bool)
    (ev : MessageEvent)
    (h1 : ev.isFromMe = false)
    (h2 : (ev.chat.server == "broadcast") = false)
    (h3 : isMuted env ev.chat = true) :
    (cfg.IncludeMutedMessages = false →
      ((handleMessage env cfg conns db saveOk dialOk writeOk ev).2 = [] ↔
        (isMentioned env ev.message = false ∧
          isReplyToMe env ev.message = false))) ∧
    (cfg.IncludeMutedMessages = true →
      (handleMessage env cfg conns db saveOk dialOk writeOk ev).2 ≠ []) := by
  have h2' : (ev.chat.server == "broadcast" && !cfg.IncludeStatusMessages) =
      false := by rw [h2]; rfl
  constructor
  · intro hopt
    constructor
    · intro htrace
      by_contra hcon
      have hkeep : (isMuted env ev.chat && !isMentioned env ev.message &&
          !isReplyToMe env ev.message && !cfg.IncludeMutedMessages) = false := by
        cases hmb : isMentioned env ev.message with
        | true => simp [hmb]
        | false =>
          cases hrb : isReplyToMe env ev.message with
          | true => simp [hrb]
          | false => exact absurd ⟨hmb, hrb⟩ hcon
      exact absurd htrace
        (handleMessage_keep_ne_nil env cfg conns db saveOk dialOk writeOk ev
          h1 h2' hkeep)
    · rintro ⟨hm, hr⟩
      have hdrop : (isMuted env ev.chat && !isMentioned env ev.message &&
          !isReplyToMe env ev.message && !cfg.IncludeMutedMessages) = true := by
        rw [h3, hm, hr, hopt]; rfl
      rw [handleMessage_drop_muted env cfg conns db saveOk dialOk writeOk ev
        h1 h2' hdrop]
  · intro hopt
    have hkeep : (isMuted env ev.chat && !isMentioned env ev.message &&
        !isReplyToMe env ev.message && !cfg.IncludeMutedMessages) = false := by
      rw [hopt]; simp
    exact handleMessage_keep_ne_nil env cfg conns db saveOk dialOk writeOk ev
      h1 h2' hkeep

/-- C3: a self-originated message event is dropped outright: the table
is untouched and no effect (persist, broadcast or otherwise) occurs. -/
theorem c3_self_events_dropped (env : Env) (cfg : Config)
    (conns : List Nat) (db : StoreTable Message)
    (saveOk dialOk writeOk : Bool) (ev : MessageEvent)
    (h : ev.isFromMe = true) :
    handleMessage env cfg conns db saveOk dialOk writeOk ev = (db, []) := by
  simp [handleMessage, h]

/-! ## Concrete fixtures for closed checks -/

/-- A concrete own identity. -/
def meWit : JID := ⟨"15550001111", 0, "s.whatsapp.net"⟩

/-- A concrete linked-device identity for the same account. -/
def lidWit : JID := ⟨"777", 0, "lid"⟩

/-- A concrete chat identity. -/
def chatWit : JID := ⟨"15552223333", 0, "s.whatsapp.net"⟩

/-- A concrete sender identity. -/
def senderWit : JID := ⟨"15552223333", 0, "s.whatsapp.net"⟩

/-- A concrete environment with no chat muted. -/
def envWit : Env :=
  { myJID := some meWit, myLID := lidWit,
    chatSettings := fun _ => none,
    contacts := fun _ => none,
    groupInfo := fun _ => none,
    now := 1000 }

/-- The same environment with every chat muted forever. -/
def envMutedWit : Env :=
  { envWit with chatSettings := fun _ => some mutedForever }

/-- Configuration with both include options off (the defaults). -/
def cfgWit : Config :=
  { IncludeStatusMessages := false, IncludeMutedMessages := false }

/-- A plain inbound text message carrying no mention and no reply. -/
def evPlainWit : MessageEvent :=
  { isFromMe := false, chat := chatWit, sender := senderWit,
    timestamp := 5, isGroup := false, pushName := "Bob",
    message := { WaMessage.empty with conversation := "hi" } }

/-- The same message marked self-originated. -/
def evFromMeWit : MessageEvent := { evPlainWit with isFromMe := true }

/-- C2 witness: in a muted chat with both options off, the plain
message is dropped. -/
theorem c2_mute_bypass_witness :
    evPlainWit.isFromMe = false ∧
    (evPlainWit.chat.server == "broadcast") = false ∧
    isMuted envMutedWit evPlainWit.chat = true ∧
    cfgWit.IncludeMutedMessages = false ∧
    isMentioned envMutedWit evPlainWit.message = false ∧
    isReplyToMe envMutedWit evPlainWit.message = false ∧
    (handleMessage envMutedWit cfgWit [1] StoreTable.empty true true true
      evPlainWit).2 = [] := by
  have h := c2_mute_bypass envMutedWit cfgWit [1] StoreTable.empty
    true true true evPlainWit rfl (by decide) (by decide)
  exact ⟨rfl, by decide, by decide, rfl, by decide, by decide,
    (h.1 rfl).mpr ⟨by decide, by decide⟩⟩

/-- C3 witness: the concrete self-originated message leaves no trace. -/
theorem c3_self_events_dropped_witness :
    evFromMeWit.isFromMe = true ∧
    handleMessage envWit cfgWit [1] StoreTable.empty true true true
      evFromMeWit = (StoreTable.empty, []) :=
  ⟨rfl, c3_self_events_dropped envWit cfgWit [1] StoreTable.empty
    true true true evFromMeWit rfl⟩

/-! ## Display-text claims -/

/-- C7: the resolved display text of a kept message is never empty; an
image caption is prefixed with its tag, a bare image maps to its tag,
and the other media types map to their placeholder labels. -/
theorem c7_display_text (m : WaMessage) (fileName displayName : String) :
    resolveDisplayText m ≠ "" ∧
    resolveDisplayText
      { WaMessage.empty with image := some ⟨"hello", none⟩ } =
        "[Image] hello" ∧
    resolveDisplayText { WaMessage.empty with image := some ⟨"", none⟩ } =
      "[Image]" ∧
    resolveDisplayText { WaMessage.empty with video := some ⟨"", none⟩ } =
      "[Video]" ∧
    resolveDisplayText
      { WaMessage.empty with document := some ⟨fileName, none⟩ } =
        "[Document] " ++ fileName ∧
    resolveDisplayText { WaMessage.empty with audio := some ⟨true, none⟩ } =
      "[Voice Message]" ∧
    resolveDisplayText { WaMessage.empty with audio := some ⟨false, none⟩ } =
      "[Audio]" ∧
    resolveDisplayText { WaMessage.empty with sticker := some ⟨none⟩ } =
      "[Sticker]" ∧
    resolveDisplayText
      { WaMessage.empty with contact := some ⟨displayName⟩ } =
        "[Contact] " ++ displayName ∧
    resolveDisplayText { WaMessage.empty with location := some () } =
      "[Location]" := by
  refine ⟨?_, by decide, by decide, by decide, ?_, by decide, by decide,
    by decide, ?_, by decide⟩
  · by_cases hb : extractText m = ""
    · simp [resolveDisplayText, hb]
    · simp [resolveDisplayText, hb]
  · have hne : "[Document] ".length + fileName.length ≠ 0 := by
      intro hcon
      rw [Nat.add_eq_zero] at hcon
      exact absurd hcon.1 (by decide)
    rw [resolveDisplayText]
    have hx : extractText
        { WaMessage.empty with document := some ⟨fileName, none⟩ } =
          "[Document] " ++ fileName := by
      rfl
    rw [hx]
    have hbeq : ("[Document] " ++ fileName == "") = false := by
      rw [beq_eq_false_iff_ne]
      intro hcon
      exact hne (by rw [← String.length_append, hcon]; rfl)
    rw [hbeq]
    rfl
  · have hne : "[Contact] ".length + displayName.length ≠ 0 := by
      intro hcon
      rw [Nat.add_eq_zero] at hcon
      exact absurd hcon.1 (by decide)
    rw [resolveDisplayText]
    have hx : extractText
        { WaMessage.empty with contact := some ⟨displayName⟩ } =
          "[Contact] " ++ displayName := by
      rfl
    rw [hx]
    have hbeq : ("[Contact] " ++ displayName == "") = false := by
      rw [beq_eq_false_iff_ne]
      intro hcon
      exact hne (by rw [← String.length_append, hcon]; rfl)
    rw [hbeq]
    rfl

/-! ## Identity matching -/

/-- A rendered JID always contains the at sign and is never empty. -/
theorem JID.render_ne_empty (j : JID) : j.render ≠ "" := by
  rw [JID.render]
  by_cases h : j.device = 0
  · rw [if_pos h]
    intro hcon
    have hlen := congrArg String.length hcon
    rw [String.length_append, String.length_append] at hlen
    have h1 : String.length "@" = 1 := rfl
    have h0 : String.length "" = 0 := rfl
    rw [h1, h0] at hlen
    omega
  · rw [if_neg h]
    intro hcon
    have hlen := congrArg String.length hcon
    rw [String.length_append, String.length_append, String.length_append,
      String.length_append] at hlen
    have h1 : String.length "@" = 1 := rfl
    have h0 : String.length "" = 0 := rfl
    rw [h1, h0] at hlen
    omega

/-- C8: the mention check and the reply-to-me check each succeed when
the event references the canonical account identity (in either its
full or its non-AD form) or, when the linked-device identity is set,
that alternate identity. -/
theorem c8_dual_identity (env : Env) (me : JID) (msg : WaMessage)
    (ctx : ContextInfo)
    (hme : env.myJID = some me)
    (hctx : getContextInfo msg = some ctx) :
    (me.toNonAD.render ∈ ctx.mentionedJID → isMentioned env msg = true) ∧
    (me.render ∈ ctx.mentionedJID → isMentioned env msg = true) ∧
    (env.myLID.isEmpty = false →
      env.myLID.toNonAD.render ∈ ctx.mentionedJID →
        isMentioned env msg = true) ∧
    (ctx.participant = me.toNonAD.render → isReplyToMe env msg = true) ∧
    (ctx.participant = me.render → isReplyToMe env msg = true) ∧
    (env.myLID.isEmpty = false →
      ctx.participant = env.myLID.toNonAD.render →
        isReplyToMe env msg = true) := by
  have hment : ∀ jid ∈ ctx.mentionedJID,
      (jid == me.toNonAD.render || jid == me.render ||
        (!env.myLID.isEmpty && jid == env.myLID.toNonAD.render)) = true →
      isMentioned env msg = true := by
    intro jid hjid hpred
    simp only [isMentioned, hme, hctx]
    rw [List.any_eq_true]
    exact ⟨jid, hjid, hpred⟩
  have hreply : (ctx.participant == "") = false →
      (ctx.participant == me.toNonAD.render ||
        ctx.participant == me.render ||
        (!env.myLID.isEmpty &&
          ctx.participant == env.myLID.toNonAD.render)) = true →
      isReplyToMe env msg = true := by
    intro hne hpred
    simp only [isReplyToMe, hme, hctx, hne, Bool.false_eq_true, if_false]
    exact hpred
  refine ⟨?_, ?_, ?_, ?_, ?_, ?_⟩
  · intro hmem
    exact hment _ hmem (by simp)
  · intro hmem
    exact hment _ hmem (by simp)
  · intro hlid hmem
    refine hment _ hmem ?_
    rw [hlid]
    simp
  · intro hp
    refine hreply ?_ ?_
    · rw [beq_eq_false_iff_ne, hp]
      exact JID.render_ne_empty _
    · rw [hp]
      simp
  · intro hp
    refine hreply ?_ ?_
    · rw [beq_eq_false_iff_ne, hp]
      exact JID.render_ne_empty _
    · rw [hp]
      simp
  · intro hlid hp
    refine hreply ?_ ?_
    · rw [beq_eq_false_iff_ne, hp]
      exact JID.render_ne_empty _
    · rw [hlid, hp]
      simp

/-- A message whose extended text mentions the non-AD form of the own
identity and replies to the alternate linked-device identity. -/
def msgMentionWit : WaMessage :=
  { WaMessage.empty with
    extendedText := some
      { text := "ping",
        contextInfo := some
          { mentionedJID := ["15550001111@s.whatsapp.net"],
            participant := "777@lid" } } }

/-- C8 witness: both checks succeed on the concrete message, via the
canonical identity for the mention and the alternate identity for the
reply. -/
theorem c8_dual_identity_witness :
    envWit.myJID = some meWit ∧
    getContextInfo msgMentionWit = some
      { mentionedJID := ["15550001111@s.whatsapp.net"],
        participant := "777@lid" } ∧
    envWit.myLID.isEmpty = false ∧
    isMentioned envWit msgMentionWit = true ∧
    isReplyToMe envWit msgMentionWit = true := by
  have h := c8_dual_identity envWit meWit msgMentionWit
    { mentionedJID := ["15550001111@s.whatsapp.net"],
      participant := "777@lid" } rfl rfl
  refine ⟨rfl, rfl, by decide, ?_, ?_⟩
  · exact h.1 (by decide)
  · exact h.2.2.2.2.2 (by decide) (by decide)

/-! ## Command-loop lemmas -/

/-- The scanner loop handles every line: its trace is the concatenation
of the per-line traces, in order. -/
theorem connLoop_eq_flatMap (lines : List ConnLine) :
    connLoop lines = lines.flatMap connLineEffects := by
  induction lines with
  | nil => rfl
  | cons l rest ih =>
    cases l with
    | malformed => simp [connLoop, connLineEffects, ih]
    | cmd c sendOk => simp [connLoop, connLineEffects, ih]

/-- No command record, well-formed or not, closes the connection or
the process. -/
theorem connLineEffects_keep_open (l : ConnLine) :
    (connLineEffects l).all
      (fun e => !(e.isCloseConn || e.isExit)) = true := by
  cases l with
  | malformed => rfl
  | cmd c sendOk =>
    rw [connLineEffects]
    by_cases h1 : c.action = "send"
    · simp only [h1]
      cases sendOk <;> rfl
    · by_cases h2 : c.action = "reply"
      · simp only [h2]
        cases sendOk <;> rfl
      · have hb1 : (c.action == "send") = false := by
          rw [beq_eq_false_iff_ne]; exact h1
        have hb2 : (c.action == "reply") = false := by
          rw [beq_eq_false_iff_ne]; exact h2
        simp only [hb1, hb2, Bool.false_eq_true, if_false]
        rfl

/-- C9: the per-peer command loop handles every inbound line in order
(malformed records, unknown actions and failed dispatches are logged
and skipped) and closes the connection only once the stream ends,
whereupon the peer is unregistered; no line's handling closes the
connection or the process, and a failed send or reply leaves a log
entry while the loop continues. -/
theorem c9_command_loop (conn : Nat) (conns : List Nat)
    (lines : List ConnLine) :
    handleSocketConn conn conns lines =
      (removePeer conn (addPeer conn conns),
        lines.flatMap connLineEffects ++ [Effect.closeConn conn]) ∧
    (lines.flatMap connLineEffects).all
      (fun e => !(e.isCloseConn || e.isExit)) = true ∧
    connLineEffects ConnLine.malformed =
      [Effect.logError "Failed to parse socket command"] ∧
    (∀ c : SocketCommand, c.action ≠ "send" → c.action ≠ "reply" →
      ∀ sendOk : Bool, connLineEffects (ConnLine.cmd c sendOk) =
        [Effect.logError ("Unknown socket command: " ++ c.action)]) ∧
    (∀ chatJID messageID senderJID text : String,
      connLineEffects
        (ConnLine.cmd ⟨"send", chatJID, messageID, senderJID, text⟩ false) =
        [Effect.dispatchSend chatJID text,
          Effect.logError "Failed to send message"]) ∧
    (∀ chatJID messageID senderJID text : String,
      connLineEffects
        (ConnLine.cmd ⟨"reply", chatJID, messageID, senderJID, text⟩ false) =
        [Effect.dispatchReply chatJID messageID senderJID text,
          Effect.logError "Failed to reply to message"]) := by
  refine ⟨?_, ?_, rfl, ?_, ?_, ?_⟩
  · rw [handleSocketConn, connLoop_eq_flatMap]
  · induction lines with
    | nil => rfl
    | cons l rest ih =>
      rw [List.flatMap_cons, List.all_append, connLineEffects_keep_open, ih]
      rfl
  · intro c h1 h2 sendOk
    have hb1 : (c.action == "send") = false := by
      rw [beq_eq_false_iff_ne]; exact h1
    have hb2 : (c.action == "reply") = false := by
      rw [beq_eq_false_iff_ne]; exact h2
    rw [connLineEffects]
    simp only [hb1, hb2, Bool.false_eq_true, if_false]
  · intro chatJID messageID senderJID text
    rfl
  · intro chatJID messageID senderJID text
    rfl

/-- C9 witness: on a concrete stream holding a malformed record, an
unknown action, a failed send and a successful reply, all four lines
are handled, the connection closes only at the end and the peer ends
up unregistered. -/
theorem c9_command_loop_witness :
    (let c9lines : List ConnLine :=
      [ConnLine.malformed,
       ConnLine.cmd ⟨"frobnicate", "a", "b", "c", "d"⟩ true,
       ConnLine.cmd ⟨"send", "chat1", "", "", "hi"⟩ false,
       ConnLine.cmd ⟨"reply", "chat1", "m1", "s1", "yo"⟩ true]
     handleSocketConn 5 [5, 9] c9lines =
      ([9],
       [Effect.logError "Failed to parse socket command",
        Effect.logError ("Unknown socket command: " ++ "frobnicate"),
        Effect.dispatchSend "chat1" "hi",
        Effect.logError "Failed to send message",
        Effect.dispatchReply "chat1" "m1" "s1" "yo",
        Effect.closeConn 5]) ∧
     ("frobnicate" : String) ≠ "send" ∧ ("frobnicate" : String) ≠ "reply" ∧
     connLineEffects (ConnLine.cmd ⟨"frobnicate", "a", "b", "c", "d"⟩ true) =
       [Effect.logError ("Unknown socket command: " ++ "frobnicate")]) := by
  have h := c9_command_loop 5 [5, 9]
    [ConnLine.malformed,
     ConnLine.cmd ⟨"frobnicate", "a", "b", "c", "d"⟩ true,
     ConnLine.cmd ⟨"send", "chat1", "", "", "hi"⟩ false,
     ConnLine.cmd ⟨"reply", "chat1", "m1", "s1", "yo"⟩ true]
  refine ⟨?_, by decide, by decide, ?_⟩
  · rw [h.1]
    decide
  · exact h.2.2.2.1 ⟨"frobnicate", "a", "b", "c", "d"⟩ (by decide) (by decide)
      true

/-! ## Attention-notification failure -/

/-- C10: after writing the serialized event to every registered peer,
a failed dial or write to the attention socket is logged and terminates
the whole process with exit status 1. -/
theorem c10_attention_failure_exits (conns : List Nat) (m : Message)
    (dialOk writeOk : Bool)
    (h : sendAttentionWindow dialOk writeOk = false) :
    broadcastMessage conns dialOk writeOk m =
      (conns.map fun p => Effect.peerWrite p (SocketEventData.msg m)) ++
        [Effect.logError "Failed to send attention", Effect.exitProcess 1] ∧
    (broadcastMessage conns dialOk writeOk m).getLast? =
      some (Effect.exitProcess 1) := by
  have heq : broadcastMessage conns dialOk writeOk m =
      (conns.map fun p => Effect.peerWrite p (SocketEventData.msg m)) ++
        [Effect.logError "Failed to send attention", Effect.exitProcess 1] := by
    rw [broadcastMessage, h]
    rfl
  refine ⟨heq, ?_⟩
  rw [heq]
  have hsplit :
      (conns.map fun p => Effect.peerWrite p (SocketEventData.msg m)) ++
        [Effect.logError "Failed to send attention", Effect.exitProcess 1] =
      ((conns.map fun p => Effect.peerWrite p (SocketEventData.msg m)) ++
        [Effect.logError "Failed to send attention"]) ++
          [Effect.exitProcess 1] := by
    rw [List.append_assoc]
    rfl
  rw [hsplit, List.getLast?_concat]

/-- C10 witness: with two registered peers and a failed dial, the trace
is the two peer writes followed by the log and the fatal exit. -/
theorem c10_attention_failure_exits_witness :
    sendAttentionWindow false true = false ∧
    broadcastMessage [1, 2] false true mWit =
      [Effect.peerWrite 1 (SocketEventData.msg mWit),
       Effect.peerWrite 2 (SocketEventData.msg mWit),
       Effect.logError "Failed to send attention", Effect.exitProcess 1] := by
  have h := c10_attention_failure_exits [1, 2] mWit false true rfl
  refine ⟨rfl, ?_⟩
  rw [h.1]
  rfl

/-! ## Column-mapping and call-pipeline divergences -/

/-- C4 evidence: the INSERT the reflection builds for a Message names
the column type, which the messages table does not have (the schema has
message_id instead, which the struct never supplies), so persisting a
Message fails and nothing can be read back; the Call columns all exist
in the calls table. -/
theorem c4_message_insert_columns_invalid :
    insertColumnsValid (buildInsertColumns messageJsonTags)
      messagesTableColumns = false ∧
    "type" ∈ buildInsertColumns messageJsonTags ∧
    "type" ∉ messagesTableColumns ∧
    "message_id" ∈ messagesTableColumns ∧
    "message_id" ∉ buildInsertColumns messageJsonTags ∧
    insertColumnsValid (buildInsertColumns callJsonTags)
      callsTableColumns = true := by
  decide

/-- A concrete direct (non-group) incoming call offer. -/
def callEvWit : CallOfferEvent :=
  { timestamp := 7, callID := "call-1",
    caller := ⟨"15552223333", 0, "s.whatsapp.net"⟩,
    groupJID := ⟨"", 0, ""⟩ }

/-- C5 evidence: when saving fails, a kept message is logged and still
written to the registered peer with no fatal effect, but a kept call is
only logged — it is never written to any peer, failed save or not,
because broadcastCall is never invoked. -/
theorem c5_save_failure_behavior :
    (handleCallOffer envWit StoreTable.empty false callEvWit).2 =
      [Effect.logError "Failed to save call"] ∧
    ((handleMessage envWit cfgWit [7] StoreTable.empty false true true
      evPlainWit).2.countP Effect.isLogError = 1) ∧
    ((handleMessage envWit cfgWit [7] StoreTable.empty false true true
      evPlainWit).2.countP Effect.isPeerWrite = 1) ∧
    ((handleMessage envWit cfgWit [7] StoreTable.empty false true true
      evPlainWit).2.countP Effect.isExit = 0) := by
  decide

/-- C6 evidence: a kept call offer is persisted exactly once but written
to zero peers, the dead broadcastCall function notwithstanding. -/
theorem c6_call_never_broadcast :
    ((handleCallOffer envWit StoreTable.empty true callEvWit).2.countP
      Effect.isPersist = 1) ∧
    ((handleCallOffer envWit StoreTable.empty true callEvWit).2.countP
      Effect.isPeerWrite = 0) ∧
    ((handleCallOffer envWit StoreTable.empty true callEvWit).1.rows.length
      = 1) := by
  decide

end Wacli
